import Mathlib

/-!
Shallow embedding of the transaction-execution core of the thirdweb SDK
(`packages/sdk/src/evm`): the RPC provider resolution/cache layer
(`getProviderFromRpcUrl`), the fee policy of the `Transaction` class
(`getGasOverrides`, `getPreferredPriorityFee`, `getGasPrice`), the gasless
send path (`sendGasless`), the gas-estimation error path
(`estimateGasLimit`), and sequential batch execution
(`Transactions.executeAll`).

Monetary values are wei amounts, modelled as `Nat` (ethers `BigNumber`
values on these paths are non-negative; `BigNumber.div` truncates, which on
non-negative values is `Nat` division).
-/

/-- One gwei in wei: `ethers.utils.parseUnits("1", "gwei")`. -/
def gweiUnit : Nat := 1000000000

namespace Transaction

/-- `ethers.utils.parseUnits("300", "gwei")` — the fee ceiling. -/
def maxGasPrice : Nat := 300 * gweiUnit

/-- `ethers.utils.parseUnits("2.5", "gwei")` — the priority-fee floor. -/
def minGasPrice : Nat := 25 * gweiUnit / 10

/-- `Transaction.getPreferredPriorityFee` (urls.ts lines 664-680): add a
10% buffer (`div(100).mul(10)`, truncating division) to the chosen
priority fee, then clamp the result to `[minGasPrice, maxGasPrice]`. -/
def getPreferredPriorityFee (defaultPriorityFeePerGas : Nat) : Nat :=
  let extraTip := defaultPriorityFeePerGas / 100 * 10
  let txGasPrice := defaultPriorityFeePerGas + extraTip
  if txGasPrice > maxGasPrice then maxGasPrice
  else if txGasPrice < minGasPrice then minGasPrice
  else txGasPrice

/-- `Transaction.getGasPrice` (urls.ts lines 685-696): buffer the
network-reported gas price by 10% (`div(100).mul(10)`) and clamp only the
ceiling at `maxGasPrice`; no floor is applied on this path. The argument
is the value returned by `provider.getGasPrice()`. -/
def getGasPrice (reportedGasPrice : Nat) : Nat :=
  let extraTip := reportedGasPrice / 100 * 10
  let txGasPrice := reportedGasPrice + extraTip
  if txGasPrice > maxGasPrice then maxGasPrice
  else txGasPrice

/-- Chain id of Polygon mainnet (`ChainId.Polygon` in constants/chains). -/
def polygonChainId : Nat := 137

/-- Chain id of the Mumbai testnet (`ChainId.Mumbai` in constants/chains). -/
def mumbaiChainId : Nat := 80001

/-- Result of `Transaction.getGasOverrides`: either no fee fields (browser
context), EIP-1559 fee-market fields, or a legacy gas price. -/
inductive GasOverrides
  | empty
  | eip1559 (maxFeePerGas maxPriorityFeePerGas : Nat)
  | legacy (gasPrice : Nat)
deriving DecidableEq, Repr

/-- The priority-fee component of a `GasOverrides`, when present. -/
def GasOverrides.priorityFee : GasOverrides → Option Nat
  | .eip1559 _ p => some p
  | _ => none

/-- The maxFeePerGas component of a `GasOverrides`, when present. -/
def GasOverrides.maxFee : GasOverrides → Option Nat
  | .eip1559 m _ => some m
  | _ => none

/-- `Transaction.getGasOverrides` (urls.ts lines 621-659), with the remote
queries made explicit arguments:
* `isBrowser` — result of `isBrowser()`;
* `feeMaxFeePerGas`, `feeMaxPriorityFeePerGas` — the two fields of
  `provider.getFeeData()` (`none` models a `null` field; a present
  `BigNumber` is truthy in JS even when zero, so `supports1559` is
  exactly "both fields present");
* `chainId` — `provider.getNetwork().chainId`;
* `latestBlockBaseFee` — `provider.getBlock("latest")`: the outer `none`
  models a `null` block, the inner `none` a block without `baseFeePerGas`;
* `polygonGasStationFee` — `getPolygonGasPriorityFee(chainId)`;
* `reportedGasPrice` — `provider.getGasPrice()` (legacy branch). -/
def getGasOverrides (isBrowser : Bool)
    (feeMaxFeePerGas feeMaxPriorityFeePerGas : Option Nat) (chainId : Nat)
    (latestBlockBaseFee : Option (Option Nat)) (polygonGasStationFee : Nat)
    (reportedGasPrice : Nat) : GasOverrides :=
  if isBrowser then .empty
  else
    match feeMaxFeePerGas, feeMaxPriorityFeePerGas with
    | some _, some networkPriorityFee =>
      let baseBlockFee :=
        match latestBlockBaseFee with
        | some (some b) => b
        | _ => gweiUnit
      let defaultPriorityFee :=
        if chainId = mumbaiChainId ∨ chainId = polygonChainId then
          polygonGasStationFee
        else networkPriorityFee
      let maxPriorityFeePerGas := getPreferredPriorityFee defaultPriorityFee
      let baseMaxFeePerGas := baseBlockFee * 2
      let maxFeePerGas := baseMaxFeePerGas + maxPriorityFeePerGas
      .eip1559 maxFeePerGas maxPriorityFeePerGas
    | _, _ => .legacy (getGasPrice reportedGasPrice)

end Transaction

/-- `getPreferredPriorityFee` is exactly clamp-to-`[minGasPrice, maxGasPrice]`
of the buffered fee. -/
theorem getPreferredPriorityFee_eq_clamp (p : Nat) :
    Transaction.getPreferredPriorityFee p =
      max Transaction.minGasPrice
        (min Transaction.maxGasPrice (p + p / 100 * 10)) := by
  unfold Transaction.getPreferredPriorityFee
  simp only [Transaction.minGasPrice, Transaction.maxGasPrice, gweiUnit]
  split
  · omega
  · split <;> omega

/-- C2: on a fee-market network whose chain id is outside the Polygon
gas-station subset, the attached priority fee is the network-reported
priority fee buffered by 10% (truncating integer buffer `p / 100 * 10`)
and clamped to `[2.5 gwei, 300 gwei]`; in particular a reported priority
fee of exactly 1 gwei yields exactly 2.5 gwei, and a reported priority fee
of exactly 1000 gwei yields exactly 300 gwei. -/
theorem getGasOverrides_priorityFee_clamped :
    (∀ fmax pr cid pf gp blk,
        cid ≠ Transaction.polygonChainId → cid ≠ Transaction.mumbaiChainId →
        (Transaction.getGasOverrides false (some fmax) (some pr) cid blk pf
            gp).priorityFee =
          some (max Transaction.minGasPrice
            (min Transaction.maxGasPrice (pr + pr / 100 * 10))))
    ∧ (Transaction.getGasOverrides false (some 1) (some (1 * gweiUnit)) 1
          none 0 0).priorityFee = some (25 * gweiUnit / 10)
    ∧ (Transaction.getGasOverrides false (some 1) (some (1000 * gweiUnit)) 1
          none 0 0).priorityFee = some (300 * gweiUnit) := by
  refine ⟨fun fmax pr cid pf gp blk hpoly hmumbai => ?_, by decide, by decide⟩
  simp only [Transaction.getGasOverrides, if_neg (Bool.false_ne_true),
    Bool.false_eq_true, if_false, hpoly, hmumbai, or_self, if_false,
    Transaction.GasOverrides.priorityFee, getPreferredPriorityFee_eq_clamp]

/-- Concrete instantiation of `getGasOverrides_priorityFee_clamped` at a
reported priority fee of 100 wei on chain id 1. -/
theorem getGasOverrides_priorityFee_clamped_witness :
    (Transaction.getGasOverrides false (some 7) (some 100) 1 none 0
        0).priorityFee =
      some (max Transaction.minGasPrice
        (min Transaction.maxGasPrice (100 + 100 / 100 * 10))) :=
  getGasOverrides_priorityFee_clamped.1 7 100 1 0 0 none (by decide)
    (by decide)

/-- C3 counterexample: at a reported legacy gas price of 1000 gwei the
returned gas price is 300 gwei, which is below the claimed lower bound of
`1000 gwei × 1.10 = 1100 gwei`. -/
theorem getGasPrice_not_above_buffered_at_1000_gwei :
    ¬ (1100 * gweiUnit ≤ Transaction.getGasPrice (1000 * gweiUnit)) := by
  decide

/-- C3 (amended): on the legacy path the returned gas price is
`min (p + p / 100 * 10) (300 gwei)` — at least the integer-buffered
reported price whenever that buffered price is at most 300 gwei, and
exactly 300 gwei whenever the buffered price exceeds 300 gwei; no floor is
enforced (a reported price of 100 wei yields 110 wei, far below the
2.5 gwei floor of the fee-market path). -/
theorem getGasPrice_eq_min_buffered_ceiling :
    (∀ p, Transaction.getGasPrice p =
        min (p + p / 100 * 10) Transaction.maxGasPrice)
    ∧ Transaction.getGasPrice 100 = 110
    ∧ Transaction.getGasPrice 100 < Transaction.minGasPrice := by
  refine ⟨fun p => ?_, by decide, by decide⟩
  unfold Transaction.getGasPrice
  simp only [Transaction.maxGasPrice, gweiUnit]
  split <;> omega

/-- C4: on a fee-market network in a non-interactive context, the computed
`maxFeePerGas` is `2 × latestBlockBaseFee + bufferedPriorityFee`, where a
base fee of 1 gwei is substituted when the latest block carries no base
fee (or there is no latest block), and the buffered priority fee is
`getPreferredPriorityFee` of the chosen priority-fee source (the gas
station for the Polygon family, the network report otherwise). -/
theorem getGasOverrides_maxFee_formula (fmax pr cid pf gp : Nat)
    (blk : Option (Option Nat)) :
    Transaction.getGasOverrides false (some fmax) (some pr) cid blk pf gp =
      .eip1559
        (2 * (match blk with | some (some b) => b | _ => gweiUnit) +
          Transaction.getPreferredPriorityFee
            (if cid = Transaction.mumbaiChainId ∨
                cid = Transaction.polygonChainId then pf else pr))
        (Transaction.getPreferredPriorityFee
          (if cid = Transaction.mumbaiChainId ∨
              cid = Transaction.polygonChainId then pf else pr)) := by
  simp only [Transaction.getGasOverrides, Bool.false_eq_true, if_false]
  rw [Nat.mul_comm]

/-- Lower-case an ASCII letter code point (the effect of the `i` flag on
the scheme regex `^(ws|http)s?:`). -/
def lowerCode (c : Char) : Nat :=
  let n := c.toNat
  if 65 ≤ n ∧ n ≤ 90 then n + 32 else n

/-- The code points of a string, ASCII-lower-cased. -/
def lowerCodes (s : String) : List Nat := s.data.map lowerCode

/-- Scheme classification performed by `rpcUrl.match(/^(ws|http)s?:/i)`
followed by `switch (match[1].toLowerCase())` (urls.ts lines 200-229):
`some true` for `http:`/`https:` URLs, `some false` for `ws:`/`wss:` URLs,
`none` when the regex does not match. -/
def schemeKind (url : String) : Option Bool :=
  let cs := lowerCodes url
  if List.isPrefixOf (lowerCodes "http:") cs ∨
      List.isPrefixOf (lowerCodes "https:") cs then some true
  else if List.isPrefixOf (lowerCodes "ws:") cs ∨
      List.isPrefixOf (lowerCodes "wss:") cs then some false
  else none

/-- A connection handle returned by `getProviderFromRpcUrl`. The `id`
field models JS object identity: every `new`/factory call allocates a
fresh id, so two handles are reference-equal exactly when they are equal
as values of this type. -/
inductive Provider
  | staticJsonRpcBatch (id : Nat) (url : String) (chainId : Nat)
  | jsonRpcBatch (id : Nat) (url : String)
  | webSocket (id : Nat) (url : String) (chainId : Option Nat)
  | defaultProvider (id : Nat) (url : String)
deriving DecidableEq, Repr

/-- The module-level `RPC_PROVIDER_MAP` together with an allocation
counter supplying fresh object identities. -/
structure ProviderCache where
  entries : List (String × Provider)
  nextId : Nat
deriving DecidableEq, Repr

/-- The `${chainId || -1}` part of the cache key: a missing or zero
(falsy) chain id renders as `-1`. -/
def chainIdKey (chainId : Option Nat) : Int :=
  match chainId with
  | some c => if c = 0 then -1 else (c : Int)
  | none => -1

/-- The cache key `` `${rpcUrl}-${chainId || -1}` `` (urls.ts line 207). -/
def serializedOpts (rpcUrl : String) (chainId : Option Nat) : String :=
  rpcUrl ++ "-" ++ toString (chainIdKey chainId)

/-- `getProviderFromRpcUrl` (urls.ts lines 198-237) as a state transformer
on the provider cache. `http(s)` URLs are looked up in the cache and a
newly created provider is stored under the serialized key (a truthy chain
id selects `StaticJsonRpcBatchProvider`, otherwise
`JsonRpcBatchProvider`); `ws(s)` URLs always create a fresh
`WebSocketProvider`; anything else falls through to
`ethers.getDefaultProvider`. Constructors are total in the model, so the
source's `try`/`catch` fallback to the default provider never fires. -/
def getProviderFromRpcUrl (rpcUrl : String) (chainId : Option Nat)
    (cache : ProviderCache) : Provider × ProviderCache :=
  match schemeKind rpcUrl with
  | some true =>
    let key := serializedOpts rpcUrl chainId
    match cache.entries.lookup key with
    | some existingProvider => (existingProvider, cache)
    | none =>
      let newProvider :=
        match chainId with
        | some c =>
          if c ≠ 0 then Provider.staticJsonRpcBatch cache.nextId rpcUrl c
          else Provider.jsonRpcBatch cache.nextId rpcUrl
        | none => Provider.jsonRpcBatch cache.nextId rpcUrl
      (newProvider, ⟨(key, newProvider) :: cache.entries, cache.nextId + 1⟩)
  | some false =>
    (Provider.webSocket cache.nextId rpcUrl chainId,
      { cache with nextId := cache.nextId + 1 })
  | none =>
    (Provider.defaultProvider cache.nextId rpcUrl,
      { cache with nextId := cache.nextId + 1 })

/-- C1 counterexample: for a `ws://` URL the second call with the same URL
and chain id returns a freshly constructed handle, not the handle the
first call returned — websocket connections are never cached. -/
theorem getProviderFromRpcUrl_ws_fresh_each_call :
    (getProviderFromRpcUrl "ws://localhost:8545" (some 1)
        (getProviderFromRpcUrl "ws://localhost:8545" (some 1)
          ⟨[], 0⟩).2).1 ≠
      (getProviderFromRpcUrl "ws://localhost:8545" (some 1) ⟨[], 0⟩).1 := by
  decide

/-- C1 (amended): for every two calls of `getProviderFromRpcUrl` with the
same `http(s)`-scheme RPC URL and the same chain id, the second call
returns exactly the connection handle the first call returned (and
cached); `ws(s)` and unrecognized-scheme URLs instead produce a fresh
handle on every call. -/
theorem getProviderFromRpcUrl_http_cached (rpcUrl : String)
    (chainId : Option Nat) (cache : ProviderCache)
    (h : schemeKind rpcUrl = some true) :
    (getProviderFromRpcUrl rpcUrl chainId
        (getProviderFromRpcUrl rpcUrl chainId cache).2).1 =
      (getProviderFromRpcUrl rpcUrl chainId cache).1 := by
  unfold getProviderFromRpcUrl
  rw [h]
  cases hl : cache.entries.lookup (serializedOpts rpcUrl chainId) with
  | none => simp only [hl, List.lookup, beq_self_eq_true]
  | some p => simp only [hl]

/-- Concrete instantiation of `getProviderFromRpcUrl_http_cached`: two
calls with the URL `https://example.com` and chain id 1 starting from the
empty cache return the same handle. -/
theorem getProviderFromRpcUrl_http_cached_witness :
    (getProviderFromRpcUrl "https://example.com" (some 1)
        (getProviderFromRpcUrl "https://example.com" (some 1)
          ⟨[], 0⟩).2).1 =
      (getProviderFromRpcUrl "https://example.com" (some 1) ⟨[], 0⟩).1 :=
  getProviderFromRpcUrl_http_cached "https://example.com" (some 1) ⟨[], 0⟩
    (by decide)

/-- The structured error constructed by `Transaction.transactionError`
(urls.ts lines 707-779). The claims only depend on which raw failure the
diagnosis wraps, so the enrichment fields (network, signature rendering,
revert reason, contract sources) are not tracked. -/
structure TxError where
  rawMessage : String
deriving DecidableEq, Repr

namespace Transaction

/-- `Transaction.transactionError`, abstracted to the raw failure it
diagnoses. -/
def transactionError (err : String) : TxError := ⟨err⟩

/-- A value thrown by `estimateGasLimit`, distinguishing how JS delivers
it: `throw await this.transactionError(err)` delivers the resolved
structured error (`structured`), while `throw this.transactionError(err)`
without `await` delivers the pending `Promise` object itself
(`pendingPromise` records the error the promise would resolve to).
`functionMissing` is the plain `Error` thrown by `functionError()` when
the contract interface lacks the method. -/
inductive ThrownValue
  | functionMissing
  | structured (e : TxError)
  | pendingPromise (e : TxError)
deriving DecidableEq, Repr

/-- `Transaction.estimateGasLimit` (urls.ts lines 415-432) with the two
remote calls as explicit outcomes: `estimateGas` is the result of
`this.contract.estimateGas[this.method](...)` (`Except.error` carries the
raw rejection message), and `simOut` is the outcome of the `simulate()`
re-run (`simulate` throws `await this.transactionError(err)`, so its
failure is an already-resolved structured error). On estimation failure
the code first awaits `simulate()`; if that throws, its structured error
propagates; if it succeeds, the code executes
`throw this.transactionError(err)` — without `await` — so the thrown
value is the pending promise, not the structured error. -/
def estimateGasLimit (methodExists : Bool) (estimateGas : Except String Nat)
    (simOut : Except TxError Unit) : Except ThrownValue Nat :=
  if methodExists then
    match estimateGas with
    | .ok gasLimit => .ok gasLimit
    | .error err =>
      match simOut with
      | .error simErr => .error (.structured simErr)
      | .ok _ => .error (.pendingPromise (transactionError err))
  else .error .functionMissing

end Transaction

/-- C8: when gas estimation fails, `simulate()` is indeed re-run first and
its diagnosed structured error propagates when it throws (third
conjunct); but when the re-run simulation succeeds, the value raised to
the caller is the un-awaited `Promise` returned by
`this.transactionError(err)` (the `await` present on every sibling path
is missing on urls.ts line 430), not the diagnosed structured transaction
error — an unresolved value, which the claim rules out. -/
theorem estimateGasLimit_throws_pending_promise :
    Transaction.estimateGasLimit true (.error "execution reverted")
        (.ok ()) =
      .error (.pendingPromise
        (Transaction.transactionError "execution reverted"))
    ∧ (∀ e, Transaction.estimateGasLimit true (.error "execution reverted")
          (.ok ()) ≠ .error (.structured e))
    ∧ (∀ err simErr, Transaction.estimateGasLimit true (.error err)
          (.error simErr) = .error (.structured simErr)) :=
  ⟨rfl, fun e h => by simp [Transaction.estimateGasLimit] at h,
    fun err simErr => rfl⟩

/-- `Transactions.executeAll` (urls.ts lines 801-809) with each builder's
`execute()` modelled by its outcome. The returned `Nat` counts how many
builders' `execute()` was actually invoked: the loop awaits each builder
in order and a rejection aborts the loop, so the count stops at the first
failure and the partial `receipts` list is discarded with the error. -/
def Transactions.executeAll {ε ρ : Type} :
    List (Except ε ρ) → Except ε (List ρ) × Nat
  | [] => (.ok [], 0)
  | t :: ts =>
    match t with
    | .error e => (.error e, 1)
    | .ok r =>
      let rest := Transactions.executeAll ts
      (match rest.1 with
       | .ok receipts => .ok (r :: receipts)
       | .error e => .error e, rest.2 + 1)

/-- C9: `executeAll` runs builders strictly sequentially in submission
order — when every builder succeeds the results come back in submission
order (second conjunct) — and whenever the first failing builder sits at
any position (after an arbitrary prefix of successes, before an arbitrary
tail of later builders), exactly the builders up to and including the
failing one were executed, the failure propagates as the sole outcome,
and no partial result list — in particular nothing for any later
builder — is observable (first conjunct; with three builders where the
second fails, take a one-element prefix and a one-element tail). -/
theorem executeAll_sequential_abort :
    (∀ (pre : List Nat) (e : TxError) (rest : List (Except TxError Nat)),
        Transactions.executeAll
            (pre.map (.ok : Nat → Except TxError Nat) ++
              .error e :: rest) =
          (.error e, pre.length + 1))
    ∧ (∀ rs : List Nat,
        Transactions.executeAll (rs.map (.ok : Nat → Except TxError Nat)) =
          (.ok rs, rs.length)) := by
  constructor
  · intro pre e rest
    induction pre with
    | nil => rfl
    | cons r pre ih =>
      simp only [List.map, List.cons_append, Transactions.executeAll,
        List.append_eq, ih, List.length]
  · intro rs
    induction rs with
    | nil => rfl
    | cons r rs ih =>
      simp only [List.map, Transactions.executeAll, ih, List.length]

/-- A byte string (call data, packed address, ...). -/
abbrev Bytes := List Nat

/-- A 20-byte account address, kept as raw bytes so that
`solidityPack(["bytes", "address"], ...)` is concatenation. -/
abbrev Address := List Nat

/-- `ethers.utils.solidityPack(["bytes", "address"], [txData, addr])`:
tight packing of a dynamic byte string followed by an address is the
byte string with the address bytes appended. -/
def solidityPack (txData : Bytes) (addr : Address) : Bytes :=
  txData ++ addr

/-- An entry of a builder's argument list: either an array of inner call
byte strings (the shape `multicall` probing with `Array.isArray` looks
for in the first slot) or any other argument value. -/
inductive Arg
  | arr (calls : List Bytes)
  | scalar (v : String)
deriving DecidableEq, Repr

namespace Transaction

/-- The multicall rewrite inside `sendGasless` (urls.ts lines 542-551):
when the method is `multicall`, the first argument is an array, and that
array is non-empty, every inner call is replaced by itself suffix-packed
with the sender address; otherwise the argument list is returned
untouched. -/
def gaslessTransformArgs (method : String) (sender : Address)
    (args : List Arg) : List Arg :=
  match method == "multicall", args with
  | true, Arg.arr calls :: rest =>
    if calls.length > 0 then
      Arg.arr (calls.map (fun tx => solidityPack tx sender)) :: rest
    else args
  | _, _ => args

/-- The gas-limit selection of `sendGasless` (urls.ts lines 571-593):
start from `0`, double the direct contract gas estimate when it succeeds
(`none` models the swallowed estimation failure), replace anything below
`100000` by `500000`, then let a truthy explicit `gasLimit` override win
when it exceeds the computed value (JS treats an override of `0` as
falsy, hence the `g ≠ 0` guard). -/
def gaslessGasLimit (gasEstimate : Option Nat)
    (gasLimitOverride : Option Nat) : Nat :=
  let gas :=
    match gasEstimate with
    | some gasEstimateValue => gasEstimateValue * 2
    | none => 0
  let gas := if gas < 100000 then 500000 else gas
  match gasLimitOverride with
  | some g => if g ≠ 0 ∧ gas < g then g else gas
  | none => gas

end Transaction

/-- A heap of JS arrays, capturing reference semantics for the builder's
argument list: a `Builder` holds a reference (index) into the heap, so
that mutation through one reference is visible — or not — through
another. Allocation appends; out-of-range reads return `[]`. -/
structure Store where
  arrays : List (List Arg)
deriving DecidableEq, Repr

/-- Dereference an array. -/
def Store.get (s : Store) (r : Nat) : List Arg := s.arrays.getD r []

/-- Allocate a fresh array (the effect of the spread `[...this.args]`). -/
def Store.alloc (s : Store) (xs : List Arg) : Store × Nat :=
  (⟨s.arrays ++ [xs]⟩, s.arrays.length)

/-- Overwrite the array behind a reference (the effect of
`args[0] = ...` on the array `args` refers to). -/
def Store.setArr (s : Store) (r : Nat) (xs : List Arg) : Store :=
  ⟨s.arrays.set r xs⟩

/-- The caller-populated override fields `sendGasless` reads: `from`,
`value` and `gasLimit` (urls.ts lines 559-592). `sender` is the `from`
field. -/
structure Overrides where
  sender : Option Address
  value : Option Nat
  gasLimit : Option Nat
deriving DecidableEq, Repr

/-- The `Transaction` builder state `sendGasless` touches: method name, a
reference to the stored argument list, the override map, and the target
contract address. -/
structure Builder where
  method : String
  argsRef : Nat
  overrides : Overrides
  contractAddress : Address
deriving DecidableEq, Repr

/-- The collaborators `sendGasless` consults: the signer address, the
network chain id, the direct contract gas estimate for the (transformed)
call (`none` models a rejected estimation, which the code swallows), and
the contract interface's `encodeFunctionData`. -/
structure GaslessEnv where
  signerAddress : Address
  chainId : Nat
  gasEstimate : Option Nat
  encode : String → List Arg → Bytes

/-- The `GaslessTransaction` relay descriptor (urls.ts lines 595-604).
`sender`/`target` are the `from`/`to` fields. -/
structure GaslessTransaction where
  sender : Address
  target : Address
  data : Bytes
  chainId : Nat
  gasLimit : Nat
  functionName : String
  functionArgs : List Arg
  callOverrides : Overrides
deriving DecidableEq, Repr

namespace Transaction

/-- `Transaction.sendGasless` (urls.ts lines 532-616) up to the relay
hand-off: the returned `Except` is the value the relay client would be
given (`defaultGaslessSendFunction` receives the descriptor only on
`Except.ok`; `Except.error` is a throw before any relay submission), and
the returned `Builder`/`Store` are the builder state after the call.
`const args = [...this.args]` allocates a fresh heap array with the same
entries; the multicall rewrite assigns into slot 0 of that copy (when its
guard fails the assignment stores the list unchanged, matching the
source's no-op); the native-value guard fires before call-data encoding
and gas estimation. -/
def sendGasless (b : Builder) (env : GaslessEnv) (st : Store) :
    Except String GaslessTransaction × Builder × Store :=
  let thisArgs := st.get b.argsRef
  let allocated := st.alloc thisArgs
  let copyRef := allocated.2
  let st2 := allocated.1.setArr copyRef
    (gaslessTransformArgs b.method env.signerAddress thisArgs)
  let args := st2.get copyRef
  let sender := b.overrides.sender.getD env.signerAddress
  let value := b.overrides.value.getD 0
  if value > 0 then
    (.error "Cannot send native token value with gasless transaction", b,
      st2)
  else
    let data := env.encode b.method args
    let gas := gaslessGasLimit env.gasEstimate b.overrides.gasLimit
    (.ok { sender, target := b.contractAddress, data,
           chainId := env.chainId, gasLimit := gas,
           functionName := b.method, functionArgs := args,
           callOverrides := b.overrides }, b, st2)

end Transaction

/-- Reading below the length of a list is unaffected by appending. -/
theorem listGetD_append_of_lt {α : Type} (l : List α) (x : α) (i : Nat)
    (d : α) (h : i < l.length) : (l ++ [x]).getD i d = l.getD i d := by
  induction l generalizing i with
  | nil => simp at h
  | cons a l ih =>
    cases i with
    | zero => rfl
    | succ n =>
      simp only [List.cons_append, List.getD_cons_succ]
      exact ih n (by simpa using h)

/-- Reading an index other than the one written is unaffected by `set`. -/
theorem listGetD_set_of_ne {α : Type} (l : List α) (x : α) (i j : Nat)
    (d : α) (h : i ≠ j) : (l.set i x).getD j d = l.getD j d := by
  induction l generalizing i j with
  | nil => rfl
  | cons a l ih =>
    cases i with
    | zero =>
      cases j with
      | zero => exact absurd rfl h
      | succ m => rfl
    | succ n =>
      cases j with
      | zero => rfl
      | succ m =>
        simp only [List.set_cons_succ, List.getD_cons_succ]
        exact ih n m (fun hnm => h (by rw [hnm]))

/-- Reading the index just written, when it is in range. -/
theorem listGetD_set_self {α : Type} (l : List α) (x : α) (i : Nat) (d : α)
    (h : i < l.length) : (l.set i x).getD i d = x := by
  induction l generalizing i with
  | nil => simp at h
  | cons a l ih =>
    cases i with
    | zero => rfl
    | succ n =>
      simp only [List.set_cons_succ, List.getD_cons_succ]
      exact ih n (by simpa using h)

/-- C5: in the gasless send path, the relay gas limit is twice the direct
contract gas estimate, replaced by `500000` whenever the doubled value is
below `100000`, and replaced by an explicit `gasLimit` override whenever
that override exceeds the computed value; in particular an estimate of
`40000` yields `500000`, an estimate of `80000` yields `160000`, and an
override of `700000` against a computed `160000` yields `700000`. -/
theorem gaslessGasLimit_policy :
    (∀ e, Transaction.gaslessGasLimit (some e) none =
        if e * 2 < 100000 then 500000 else e * 2)
    ∧ (∀ e g, Transaction.gaslessGasLimit (some e) none < g →
        Transaction.gaslessGasLimit (some e) (some g) = g)
    ∧ Transaction.gaslessGasLimit (some 40000) none = 500000
    ∧ Transaction.gaslessGasLimit (some 80000) none = 160000
    ∧ Transaction.gaslessGasLimit (some 80000) (some 700000) = 700000 := by
  refine ⟨fun e => rfl, fun e g hg => ?_, by decide, by decide, by decide⟩
  simp only [Transaction.gaslessGasLimit] at hg ⊢
  split_ifs at hg ⊢ <;> omega

/-- Concrete instantiation of `gaslessGasLimit_policy`: the computed limit
for an estimate of `80000` is `160000 < 700000`, so the `700000` override
wins. -/
theorem gaslessGasLimit_policy_witness :
    Transaction.gaslessGasLimit (some 80000) none < 700000 ∧
    Transaction.gaslessGasLimit (some 80000) (some 700000) = 700000 :=
  ⟨by decide, gaslessGasLimit_policy.2.1 80000 700000 (by decide)⟩

/-- C6: under the gasless path, a `multicall` whose first argument is a
non-empty array has each inner call replaced by the call suffix-packed
with the sender address; a `multicall` whose first argument is an empty
array is left untouched. -/
theorem gaslessTransformArgs_multicall (sender : Address)
    (calls : List Bytes) (rest : List Arg) :
    (calls ≠ [] →
      Transaction.gaslessTransformArgs "multicall" sender
          (Arg.arr calls :: rest) =
        Arg.arr (calls.map (fun tx => solidityPack tx sender)) :: rest)
    ∧ Transaction.gaslessTransformArgs "multicall" sender
        (Arg.arr [] :: rest) = Arg.arr [] :: rest := by
  constructor
  · intro h
    simp [Transaction.gaslessTransformArgs, List.length_pos, h]
  · rfl

/-- Concrete instantiation of `gaslessTransformArgs_multicall`: one inner
call `[1, 2]` is extended with the sender address bytes `[9]`. -/
theorem gaslessTransformArgs_multicall_witness :
    Transaction.gaslessTransformArgs "multicall" [9]
        (Arg.arr [[1, 2]] :: []) =
      Arg.arr ([[1, 2]].map (fun tx => solidityPack tx [9])) :: [] :=
  (gaslessTransformArgs_multicall [9] [[1, 2]] []).1 (by decide)

/-- C7: a gasless transaction whose value override is strictly positive
fails with the native-value error, and no relay descriptor is produced —
`defaultGaslessSendFunction` is only reachable with an `Except.ok`
descriptor, so no relay submission is attempted. -/
theorem sendGasless_rejects_native_value (b : Builder) (env : GaslessEnv)
    (st : Store) (h : 0 < b.overrides.value.getD 0) :
    (Transaction.sendGasless b env st).1 =
      .error "Cannot send native token value with gasless transaction" := by
  simp only [Transaction.sendGasless, h, if_pos]

/-- Sample collaborators for the gasless witnesses. -/
def sampleEnv : GaslessEnv :=
  { signerAddress := [9], chainId := 1, gasEstimate := some 80000,
    encode := fun _ _ => [0] }

/-- Sample heap with a single stored argument list. -/
def sampleStore : Store := ⟨[[Arg.arr [[1, 2]]]]⟩

/-- Sample gasless multicall builder with no value override. -/
def sampleBuilder : Builder :=
  { method := "multicall", argsRef := 0,
    overrides := { sender := none, value := none, gasLimit := none },
    contractAddress := [3] }

/-- Sample builder carrying a positive value override. -/
def sampleValueBuilder : Builder :=
  { sampleBuilder with
    overrides := { sender := none, value := some 5, gasLimit := none } }

/-- Concrete instantiation of `sendGasless_rejects_native_value` at a
value override of 5 wei. -/
theorem sendGasless_rejects_native_value_witness :
    (Transaction.sendGasless sampleValueBuilder sampleEnv sampleStore).1 =
      .error "Cannot send native token value with gasless transaction" :=
  sendGasless_rejects_native_value sampleValueBuilder sampleEnv sampleStore
    (by decide)

/-- C10: `sendGasless` operates on a shallow copy of the builder's
argument list: for a builder whose argument-list reference is live in the
heap, the builder record (method, overrides, and all other fields) and
the heap array it references are unchanged after the call, and on success
the suffix-packed arguments appear only in the ephemeral relay
descriptor. -/
theorem sendGasless_preserves_builder (b : Builder) (env : GaslessEnv)
    (st : Store) (h : b.argsRef < st.arrays.length) :
    (Transaction.sendGasless b env st).2.1 = b
    ∧ ((Transaction.sendGasless b env st).2.2).get b.argsRef =
        st.get b.argsRef
    ∧ (∀ tx, (Transaction.sendGasless b env st).1 = .ok tx →
        tx.functionArgs =
          Transaction.gaslessTransformArgs b.method env.signerAddress
            (st.get b.argsRef)) := by
  have hget : ∀ xs,
      ((st.alloc (st.get b.argsRef)).1.setArr (st.alloc (st.get b.argsRef)).2
          xs).get b.argsRef = st.get b.argsRef := by
    intro xs
    simp only [Store.alloc, Store.setArr, Store.get]
    rw [listGetD_set_of_ne _ _ _ _ _ (Nat.ne_of_gt h),
      listGetD_append_of_lt _ _ _ _ h]
  have hcopy : ∀ xs,
      ((st.alloc (st.get b.argsRef)).1.setArr (st.alloc (st.get b.argsRef)).2
          xs).get (st.alloc (st.get b.argsRef)).2 = xs := by
    intro xs
    simp only [Store.alloc, Store.setArr, Store.get]
    exact listGetD_set_self _ _ _ _ (by simp)
  dsimp only [Transaction.sendGasless]
  split
  · exact ⟨rfl, hget _, fun tx htx => by simp at htx⟩
  · exact ⟨rfl, hget _, fun tx htx => by
      simp only [Except.ok.injEq] at htx
      rw [← htx, hcopy]⟩

/-- Concrete instantiation of `sendGasless_preserves_builder`: after a
gasless multicall send, the sample builder and its stored argument list
are unchanged. -/
theorem sendGasless_preserves_builder_witness :
    (Transaction.sendGasless sampleBuilder sampleEnv sampleStore).2.1 =
      sampleBuilder
    ∧ ((Transaction.sendGasless sampleBuilder sampleEnv
          sampleStore).2.2).get sampleBuilder.argsRef =
        sampleStore.get sampleBuilder.argsRef :=
  ⟨(sendGasless_preserves_builder sampleBuilder sampleEnv sampleStore
      (by decide)).1,
   (sendGasless_preserves_builder sampleBuilder sampleEnv sampleStore
      (by decide)).2.1⟩
